import Mathlib

/-!
Shallow embedding of the analysis core of `battdegr`
(`src/battdegr/analysis/lifetime_predictor.py` and
`src/battdegr/analysis/stress_analysis.py`).

Numbers are modelled as exact rationals `ℚ`; `np.inf` is modelled by a
dedicated constructor of `XVal`; a Python runtime error (IndexError,
numpy broadcast ValueError) is modelled by `none` in an `Option` result.
The degradation model (`self.model.predict_fade`) is an external
capability and is passed in as a function argument.
-/

namespace Battdegr

/-- A numpy float that is either finite or the `np.inf` sentinel. -/
inductive XVal where
  | fin (q : ℚ)
  | inf
deriving DecidableEq, Repr

/-- Embedding of `np.linspace a b n` (endpoint included, numpy default): `n` evenly
spaced samples from `a` to `b`. -/
def linspace (a b : ℚ) (n : ℕ) : List ℚ :=
  if n = 0 then []
  else if n = 1 then [a]
  else (List.range n).map (fun i : ℕ => a + (b - a) * (i : ℚ) / ((n : ℚ) - 1))

/-- The time grid built by `estimate_lifetime`:
`np.linspace(0, max_years * 365, max_years * 365)`. -/
def timeGrid (max_years : ℕ) : List ℚ :=
  linspace 0 (365 * max_years) (365 * max_years)

/-- The cycle grid built by `estimate_lifetime`: `cycles = time_days * cycles_per_day`. -/
def cycleGrid (max_years : ℕ) (cycles_per_day : ℚ) : List ℚ :=
  (timeGrid max_years).map (fun t => t * cycles_per_day)

/-- The retention curve computed inside `estimate_lifetime`:
`fade = model.predict_fade(time_days, cycles, temperature)` followed by
`retention = 1.0 - fade / 100.0`. -/
def retentionCurve (predict_fade : List ℚ → List ℚ → ℚ → List ℚ)
    (temperature : ℚ) (cycles_per_day : ℚ) (max_years : ℕ) : List ℚ :=
  (predict_fade (timeGrid max_years) (cycleGrid max_years cycles_per_day)
      temperature).map (fun f => 1 - f / 100)

/-- The `(time_days[idx[0]], cycles[idx[0]])` lookup of `estimate_lifetime`
at crossing index `i`; `none` models the Python IndexError when `i` falls
outside the grid. -/
def eolAt (max_years : ℕ) (cycles_per_day : ℚ) (i : ℕ) :
    Option (XVal × XVal) :=
  match (timeGrid max_years)[i]?, (cycleGrid max_years cycles_per_day)[i]? with
  | some t, some c => some (XVal.fin t, XVal.fin c)
  | _, _ => none

/-- Embedding of `LifetimePredictor.estimate_lifetime`. The model `predict_fade` receives
the time grid, the cycle grid and the temperature (the `**kwargs` stress bag
is closed over by the caller). `none` models a Python IndexError
(`time_days[idx[0]]` out of range, possible when the model returns a fade
array longer than the grid). -/
def estimate_lifetime (predict_fade : List ℚ → List ℚ → ℚ → List ℚ)
    (temperature : ℚ) (cycles_per_day : ℚ) (eol_threshold : ℚ)
    (max_years : ℕ) : Option (XVal × XVal) :=
  match (retentionCurve predict_fade temperature cycles_per_day
      max_years).findIdx? (fun r => decide (r ≤ eol_threshold)) with
  | some i => eolAt max_years cycles_per_day i
  | none => some (XVal.inf, XVal.inf)

/-- Embedding of `StressFactorAnalysis.temperature_sweep` (numeric contract only; the plot
is presentation-layer). The single-point grids are
`time_days = [time_years * 365]`, `cycles = [time_years * 365 * cycles_per_day]`;
`none` models the IndexError of `predict_fade(...)[0]` on an empty model
output. -/
def temperature_sweep (predict_fade : List ℚ → List ℚ → ℚ → List ℚ)
    (temp_range : List ℚ) (time_years : ℚ) (cycles_per_day : ℚ) :
    Option (List ℚ × List ℚ) :=
  (temp_range.mapM (fun temp =>
      (predict_fade [time_years * 365] [time_years * 365 * cycles_per_day]
        temp)[0]?)).map
    (fun fades => (temp_range, fades))

/-- Embedding of `StressFactorAnalysis.dod_sweep`. The model's fourth argument is the
`dod=` keyword. -/
def dod_sweep (predict_fade : List ℚ → List ℚ → ℚ → ℚ → List ℚ)
    (dod_values : List ℚ) (temperature : ℚ) (time_years : ℚ)
    (cycles_per_day : ℚ) : Option (List ℚ × List ℚ) :=
  (dod_values.mapM (fun dod =>
      (predict_fade [time_years * 365] [time_years * 365 * cycles_per_day]
        temperature dod)[0]?)).map
    (fun fades => (dod_values, fades))

/-- Embedding of `StressFactorAnalysis.crate_sweep`. The model's fourth argument is the
`c_rate=` keyword. -/
def crate_sweep (predict_fade : List ℚ → List ℚ → ℚ → ℚ → List ℚ)
    (c_rates : List ℚ) (temperature : ℚ) (time_years : ℚ)
    (cycles_per_day : ℚ) : Option (List ℚ × List ℚ) :=
  (c_rates.mapM (fun c_rate =>
      (predict_fade [time_years * 365] [time_years * 365 * cycles_per_day]
        temperature c_rate)[0]?)).map
    (fun fades => (c_rates, fades))

/-- One entry of the `compare_scenarios` result mapping:
`{'eol_years': eol_time / 365.0, 'eol_cycles': ..., 'temperature': ...}`. -/
structure ScenarioResult where
  eol_years : XVal
  eol_cycles : XVal
  temperature : ℚ
deriving DecidableEq, Repr

/-- Division of an extended float by a positive constant: `np.inf / 365.0 = np.inf`. -/
def xdiv365 : XVal → XVal
  | XVal.fin t => XVal.fin (t / 365)
  | XVal.inf => XVal.inf

/-- A scenario's parameter bag as seen by `compare_scenarios`: the required
`temperature` key, the remaining stress parameters (abstract type `α`,
forwarded to the model as `**kwargs`), and — because the bag is splatted
into `estimate_lifetime(temp, cycles_per_day, eol_threshold, **kwargs)` —
optional keys named after `estimate_lifetime`'s own parameters: a
`max_years` key binds the horizon parameter by Python keyword capture,
while a `cycles_per_day` or `eol_threshold` key collides with the
positional argument and raises a TypeError. -/
structure ScenarioParams (α : Type) where
  temperature : ℚ
  max_years? : Option ℕ
  cycles_per_day? : Option ℚ
  eol_threshold? : Option ℚ
  stress : α

/-- Embedding of `LifetimePredictor.compare_scenarios`. The list order is
the insertion order of the Python dict. Each scenario's bag is splatted
into `estimate_lifetime`: a `max_years` key in the bag overrides the
default 30-year horizon; a `cycles_per_day` or `eol_threshold` key raises
`TypeError: got multiple values for argument` (modelled as `none`); all
remaining keys are forwarded to `predict_fade`. -/
def compare_scenarios {α : Type} (predict_fade : List ℚ → List ℚ → ℚ → α → List ℚ)
    (scenarios : List (String × ScenarioParams α)) (cycles_per_day : ℚ)
    (eol_threshold : ℚ) : Option (List (String × ScenarioResult)) :=
  scenarios.mapM (fun s =>
    if s.2.cycles_per_day?.isSome || s.2.eol_threshold?.isSome then none
    else
      (estimate_lifetime (fun td cyc temp => predict_fade td cyc temp s.2.stress)
          s.2.temperature cycles_per_day eol_threshold
          (s.2.max_years?.getD 30)).map
        (fun r => (s.1, ScenarioResult.mk (xdiv365 r.1) r.2 s.2.temperature)))

/-- A numpy float that is either an exact rational or the `nan` produced by
an invalid operation (mean of an empty array, square root of a negative). -/
inductive NpFloat where
  | num (q : ℚ)
  | nan
deriving DecidableEq, Repr

/-- Multiplication of a possibly-NaN float by a rational scalar:
`nan * c = nan`. -/
def NpFloat.mulQ : NpFloat → ℚ → NpFloat
  | NpFloat.num q, c => NpFloat.num (q * c)
  | NpFloat.nan, _ => NpFloat.nan

/-- A real-valued numpy float, either finite or NaN (the value domain of
`np.sqrt`). -/
inductive RFloat where
  | num (r : ℝ)
  | nan

/-- Embedding of `np.sqrt` on a possibly-NaN scalar: NaN propagates, and a
negative radicand yields NaN. -/
noncomputable def npSqrt : NpFloat → RFloat
  | NpFloat.num q => if q < 0 then RFloat.nan else RFloat.num (Real.sqrt (q : ℝ))
  | NpFloat.nan => RFloat.nan

/-- Embedding of `np.mean` of a 1-D array: `sum / length` on a nonempty
array, NaN on the empty array (numpy emits a warning and returns NaN). -/
def mean (l : List ℚ) : NpFloat :=
  if l = [] then NpFloat.nan else NpFloat.num (l.sum / l.length)

/-- Elementwise subtraction of two 1-D numpy arrays with numpy's broadcast
rule: lengths must be equal, or one of them must be 1 (the scalar-like array
is stretched); otherwise a ValueError, modelled as `none`. -/
def npSub (p a : List ℚ) : Option (List ℚ) :=
  if p.length = a.length then some (List.zipWith (fun x y => x - y) p a)
  else if p.length = 1 then some (a.map (fun y => p.headI - y))
  else if a.length = 1 then some (p.map (fun x => x - a.headI))
  else none

/-- Elementwise division of two 1-D numpy arrays with the same broadcast rule. -/
def npDiv (p a : List ℚ) : Option (List ℚ) :=
  if p.length = a.length then some (List.zipWith (fun x y => x / y) p a)
  else if p.length = 1 then some (a.map (fun y => p.headI / y))
  else if a.length = 1 then some (p.map (fun x => x / a.headI))
  else none

/-- The radicand of `calculate_rmse`: `np.mean((predicted - actual) ** 2)`,
kept as an executable computation over `NpFloat` (`none` is the broadcast
ValueError, `some nan` the NaN of an empty mean). -/
def mseQ (predicted actual : List ℚ) : Option NpFloat :=
  (npSub predicted actual).map (fun d => mean (d.map (fun x => x ^ 2)))

/-- Embedding of `ModelValidator.calculate_rmse`, i.e. `np.sqrt(np.mean((predicted - actual) ** 2))`.
The square root of a rational is irrational in general, hence the finite
values live in `ℝ`; all executable content is in `mseQ`. -/
noncomputable def calculate_rmse (predicted actual : List ℚ) : Option RFloat :=
  (mseQ predicted actual).map npSqrt

/-- Embedding of `ModelValidator.calculate_mape`, i.e. `np.mean(np.abs((predicted - actual) / actual)) * 100`.
Rational division by zero yields `0` in the embedding; every claim about MAPE
restricts `actual` to have no zero entries, where the embedding is exact. -/
def calculate_mape (predicted actual : List ℚ) : Option NpFloat :=
  (npSub predicted actual).bind (fun d =>
    (npDiv d actual).map (fun q => (mean (q.map (fun x => |x|))).mulQ 100))

/-! ### Grid lemmas -/

theorem linspace_length (a b : ℚ) (n : ℕ) : (linspace a b n).length = n := by
  by_cases h0 : n = 0
  · rw [linspace, if_pos h0, h0]
    rfl
  · by_cases h1 : n = 1
    · rw [linspace, if_neg h0, if_pos h1, h1]
      rfl
    · rw [linspace, if_neg h0, if_neg h1, List.length_map, List.length_range]

theorem linspace_getElem? (a b : ℚ) {n : ℕ} (h2 : 2 ≤ n) {i : ℕ} (hi : i < n) :
    (linspace a b n)[i]? = some (a + (b - a) * i / ((n : ℚ) - 1)) := by
  have hn0 : n ≠ 0 := by omega
  have hn1 : n ≠ 1 := by omega
  rw [linspace, if_neg hn0, if_neg hn1, List.getElem?_map,
    List.getElem?_range hi]
  rfl

theorem timeGrid_length (my : ℕ) : (timeGrid my).length = 365 * my := by
  simp [timeGrid, linspace_length]

theorem timeGrid_getElem? {my i : ℕ} (hmy : 1 ≤ my) (hi : i < 365 * my) :
    (timeGrid my)[i]? = some (365 * (my : ℚ) * i / (365 * (my : ℚ) - 1)) := by
  have h2 : 2 ≤ 365 * my := by omega
  rw [timeGrid, linspace_getElem? 0 _ h2 hi]
  congr 1
  push_cast
  ring

theorem timeGrid_getElem?_zero {my : ℕ} (hmy : 1 ≤ my) :
    (timeGrid my)[0]? = some 0 := by
  rw [timeGrid_getElem? hmy (by omega)]
  norm_num

theorem timeGrid_mem_le {my : ℕ} {t : ℚ} (ht : t ∈ timeGrid my) :
    t ≤ 365 * my := by
  rw [timeGrid, linspace] at ht
  by_cases h0 : 365 * my = 0
  · rw [if_pos h0] at ht
    simp at ht
  · by_cases h1 : 365 * my = 1
    · exact absurd h1 (by omega)
    · rw [if_neg h0, if_neg h1] at ht
      rcases List.mem_map.mp ht with ⟨i, hi, rfl⟩
      rw [List.mem_range] at hi
      have hN : (2 : ℚ) ≤ 365 * (my : ℚ) := by
        have h : (2 : ℕ) ≤ 365 * my := by omega
        calc (2 : ℚ) ≤ ((365 * my : ℕ) : ℚ) := by exact_mod_cast h
          _ = 365 * (my : ℚ) := by push_cast; ring
      have hN1 : (0 : ℚ) < (365 * (my : ℚ)) - 1 := by linarith
      have hiq : (i : ℚ) ≤ (365 * (my : ℚ)) - 1 := by
        have h : (i : ℚ) + 1 ≤ ((365 * my : ℕ) : ℚ) := by
          exact_mod_cast Nat.succ_le_of_lt hi
        push_cast at h
        linarith
      have hcast : ((365 * my : ℕ) : ℚ) = 365 * (my : ℚ) := by
        push_cast
        ring
      rw [hcast, zero_add, div_le_iff₀ hN1]
      nlinarith

theorem cycleGrid_length (my : ℕ) (cpd : ℚ) :
    (cycleGrid my cpd).length = 365 * my := by
  simp [cycleGrid, timeGrid_length]

theorem cycleGrid_getElem? (my : ℕ) (cpd : ℚ) (i : ℕ) :
    (cycleGrid my cpd)[i]? = ((timeGrid my)[i]?).map (fun t => t * cpd) := by
  simp [cycleGrid]

/-! ### mapM helper lemmas (Option monad) -/

theorem mapM_eq_some_map {α β : Type} (f : α → Option β) (g : α → β)
    (l : List α) (h : ∀ x ∈ l, f x = some (g x)) :
    l.mapM f = some (l.map g) := by
  induction l with
  | nil => rfl
  | cons x t ih =>
    rw [List.mapM_cons, h x (List.mem_cons_self x t),
      ih (fun y hy => h y (List.mem_cons_of_mem x hy))]
    rfl

theorem mapM_eq_some_of_isSome {α β : Type} (f : α → Option β)
    (l : List α) (h : ∀ x ∈ l, (f x).isSome = true) :
    ∃ ys : List β, l.mapM f = some ys ∧ ys.length = l.length ∧
      ∀ i (hi : i < l.length) (hi' : i < ys.length),
        f (l.get ⟨i, hi⟩) = some (ys.get ⟨i, hi'⟩) := by
  induction l with
  | nil =>
    exact ⟨[], rfl, rfl, fun i hi hi' => absurd hi (by simp)⟩
  | cons x t ih =>
    obtain ⟨b, hb⟩ := Option.isSome_iff_exists.mp (h x (List.mem_cons_self x t))
    obtain ⟨ys, hys, hlen, hidx⟩ :=
      ih (fun y hy => h y (List.mem_cons_of_mem x hy))
    refine ⟨b :: ys, ?_, by simp [hlen], ?_⟩
    · rw [List.mapM_cons, hb, hys]
      rfl
    · intro i hi hi'
      match i with
      | 0 => exact hb
      | Nat.succ j =>
        exact hidx j (by simpa using hi) (by simpa using hi')

theorem mapM_mem {α β : Type} (f : α → Option β) (l : List α) (ys : List β)
    (hmap : l.mapM f = some ys) : ∀ y ∈ ys, ∃ x ∈ l, f x = some y := by
  induction l generalizing ys with
  | nil =>
    simp only [List.mapM_nil] at hmap
    cases hmap
    simp
  | cons x t ih =>
    rw [List.mapM_cons] at hmap
    cases hfx : f x with
    | none => rw [hfx] at hmap; cases hmap
    | some b =>
      rw [hfx] at hmap
      cases hmt : t.mapM f with
      | none =>
        rw [hmt] at hmap
        cases hmap
      | some bs =>
        rw [hmt] at hmap
        have : ys = b :: bs := by
          simpa using hmap.symm
        subst this
        intro y hy
        rcases List.mem_cons.mp hy with rfl | hy'
        · exact ⟨x, List.mem_cons_self x t, hfx⟩
        · obtain ⟨z, hz, hfz⟩ := ih bs hmt y hy'
          exact ⟨z, List.mem_cons_of_mem x hz, hfz⟩

/-! ### estimate_lifetime lemmas -/

theorem retentionCurve_length (pf : List ℚ → List ℚ → ℚ → List ℚ)
    (temp cpd : ℚ) (my : ℕ) :
    (retentionCurve pf temp cpd my).length =
      (pf (timeGrid my) (cycleGrid my cpd) temp).length := by
  simp [retentionCurve]

theorem estimate_lifetime_of_findIdx?_none
    (pf : List ℚ → List ℚ → ℚ → List ℚ) (temp cpd thr : ℚ) (my : ℕ)
    (h : (retentionCurve pf temp cpd my).findIdx?
      (fun r => decide (r ≤ thr)) = none) :
    estimate_lifetime pf temp cpd thr my = some (XVal.inf, XVal.inf) := by
  unfold estimate_lifetime
  rw [h]

theorem estimate_lifetime_of_findIdx?_some
    (pf : List ℚ → List ℚ → ℚ → List ℚ) (temp cpd thr : ℚ) (my : ℕ)
    {i : ℕ} {t c : ℚ}
    (h : (retentionCurve pf temp cpd my).findIdx?
      (fun r => decide (r ≤ thr)) = some i)
    (ht : (timeGrid my)[i]? = some t)
    (hc : (cycleGrid my cpd)[i]? = some c) :
    estimate_lifetime pf temp cpd thr my = some (XVal.fin t, XVal.fin c) := by
  unfold estimate_lifetime
  rw [h]
  show eolAt my cpd i = some (XVal.fin t, XVal.fin c)
  unfold eolAt
  rw [ht, hc]

/-- If the model output is no longer than the grid, `estimate_lifetime`
never raises: any crossing index is a valid grid index. -/
theorem estimate_lifetime_isSome (pf : List ℚ → List ℚ → ℚ → List ℚ)
    (temp cpd thr : ℚ) (my : ℕ)
    (hlen : (pf (timeGrid my) (cycleGrid my cpd) temp).length ≤ 365 * my) :
    (estimate_lifetime pf temp cpd thr my).isSome = true := by
  cases hfind : (retentionCurve pf temp cpd my).findIdx?
      (fun r => decide (r ≤ thr)) with
  | none => rw [estimate_lifetime_of_findIdx?_none pf temp cpd thr my hfind]; rfl
  | some i =>
    obtain ⟨hi, -, -⟩ := List.findIdx?_eq_some_iff_getElem.mp hfind
    rw [retentionCurve_length] at hi
    have hit : i < (timeGrid my).length := by
      rw [timeGrid_length]
      omega
    have hic : i < (cycleGrid my cpd).length := by
      rw [cycleGrid_length]
      omega
    rw [estimate_lifetime_of_findIdx?_some pf temp cpd thr my hfind
      (List.getElem?_eq_getElem hit) (List.getElem?_eq_getElem hic)]
    rfl

/-- A finite EOL time returned by `estimate_lifetime` is a grid point. -/
theorem estimate_lifetime_fin_mem_timeGrid
    (pf : List ℚ → List ℚ → ℚ → List ℚ) (temp cpd thr : ℚ) (my : ℕ)
    {t : ℚ} {c : XVal}
    (h : estimate_lifetime pf temp cpd thr my = some (XVal.fin t, c)) :
    t ∈ timeGrid my := by
  unfold estimate_lifetime at h
  cases hfind : (retentionCurve pf temp cpd my).findIdx?
      (fun r => decide (r ≤ thr)) with
  | none =>
    rw [hfind] at h
    cases h
  | some i =>
    rw [hfind] at h
    have h' : eolAt my cpd i = some (XVal.fin t, c) := h
    unfold eolAt at h'
    cases ht : (timeGrid my)[i]? with
    | none =>
      rw [ht] at h'
      cases hc : (cycleGrid my cpd)[i]? <;> rw [hc] at h' <;> cases h'
    | some t' =>
      rw [ht] at h'
      cases hc : (cycleGrid my cpd)[i]? with
      | none =>
        rw [hc] at h'
        cases h'
      | some c' =>
        rw [hc] at h'
        have htt : t' = t := by
          cases h'
          rfl
        exact htt ▸ List.getElem?_mem ht

theorem timeGrid_ne_nil {my : ℕ} (hmy : 1 ≤ my) : timeGrid my ≠ [] := by
  intro h
  have hl := timeGrid_length my
  rw [h] at hl
  simp at hl
  omega

theorem headI_map_const {α β : Type} [Inhabited β] (l : List α) (b : β)
    (hl : l ≠ []) : (l.map (fun _ => b)).headI = b := by
  cases l with
  | nil => exact absurd rfl hl
  | cons x t => rfl

/-! ### Claim theorems -/

/-- Claim C2: for every model whose retention stays strictly above
`eol_threshold` at every grid point within the horizon, `estimate_lifetime`
returns `(np.inf, np.inf)` as an explicit "not reached" sentinel and does
not raise an error. -/
theorem C2_never_reached_sentinel (predict_fade : List ℚ → List ℚ → ℚ → List ℚ)
    (temperature cycles_per_day eol_threshold : ℚ) (max_years : ℕ)
    (habove : ∀ j (hj : j < (retentionCurve predict_fade temperature
        cycles_per_day max_years).length),
      eol_threshold < (retentionCurve predict_fade temperature cycles_per_day
        max_years).get ⟨j, hj⟩) :
    estimate_lifetime predict_fade temperature cycles_per_day eol_threshold
      max_years = some (XVal.inf, XVal.inf) := by
  apply estimate_lifetime_of_findIdx?_none
  rw [List.findIdx?_eq_none_iff]
  intro x hx
  rcases List.mem_iff_get.mp hx with ⟨⟨j, hj⟩, rfl⟩
  simp only [decide_eq_false_iff_not, not_le]
  exact habove j hj

/-- Witness for C2: a model returning fade = 0 % everywhere with
`eol_threshold = 0.8` and `max_years = 5` keeps retention at 1 on the whole
grid, and `estimate_lifetime` returns the infinite sentinel. -/
theorem C2_witness :
    (∀ j (hj : j < (retentionCurve (fun td _ _ => td.map (fun _ => 0)) 25 1
        5).length),
      (4 / 5 : ℚ) < (retentionCurve (fun td _ _ => td.map (fun _ => 0)) 25 1
        5).get ⟨j, hj⟩) ∧
    estimate_lifetime (fun td _ _ => td.map (fun _ => 0)) 25 1 (4 / 5) 5
      = some (XVal.inf, XVal.inf) := by
  have habove : ∀ j (hj : j < (retentionCurve
      (fun td _ _ => td.map (fun _ => 0)) 25 1 5).length),
      (4 / 5 : ℚ) < (retentionCurve (fun td _ _ => td.map (fun _ => 0)) 25 1
        5).get ⟨j, hj⟩ := by
    intro j hj
    simp only [retentionCurve, List.get_eq_getElem, List.getElem_map]
    norm_num
  exact ⟨habove, C2_never_reached_sentinel _ 25 1 (4 / 5) 5 habove⟩

/-- Claim C8: whenever `eol_threshold ≥ 1` and the fade at time 0 is
nonnegative — and likewise in the spec's concrete case of constant
fade = 20 % with `eol_threshold = 0.8` — the threshold is met at grid
index 0 and `estimate_lifetime` returns `(0, 0)`. -/
theorem C8_immediate_eol (predict_fade : List ℚ → List ℚ → ℚ → List ℚ)
    (temperature cycles_per_day eol_threshold : ℚ) (max_years : ℕ)
    (hmy : 1 ≤ max_years)
    (hlen : (predict_fade (timeGrid max_years)
        (cycleGrid max_years cycles_per_day) temperature).length
      = 365 * max_years)
    (hcase : (1 ≤ eol_threshold ∧
        0 ≤ (predict_fade (timeGrid max_years)
          (cycleGrid max_years cycles_per_day) temperature).headI) ∨
      (eol_threshold = 4 / 5 ∧
        (predict_fade (timeGrid max_years)
          (cycleGrid max_years cycles_per_day) temperature).headI = 20)) :
    estimate_lifetime predict_fade temperature cycles_per_day eol_threshold
      max_years = some (XVal.fin 0, XVal.fin 0) := by
  obtain ⟨f0, rest, hfe⟩ : ∃ f0 rest, predict_fade (timeGrid max_years)
      (cycleGrid max_years cycles_per_day) temperature = f0 :: rest := by
    cases hf : predict_fade (timeGrid max_years)
        (cycleGrid max_years cycles_per_day) temperature with
    | nil =>
      rw [hf] at hlen
      simp at hlen
      omega
    | cons f0 rest => exact ⟨f0, rest, rfl⟩
  have hthr : 1 - f0 / 100 ≤ eol_threshold := by
    rcases hcase with ⟨h1, h0⟩ | ⟨h1, h2⟩
    · rw [hfe] at h0
      simp only [List.headI] at h0
      have hq : (0 : ℚ) ≤ f0 / 100 := by positivity
      linarith
    · rw [hfe] at h2
      simp only [List.headI] at h2
      rw [h1, h2]
      norm_num
  have hfind : (retentionCurve predict_fade temperature cycles_per_day
      max_years).findIdx? (fun r => decide (r ≤ eol_threshold)) = some 0 := by
    rw [retentionCurve, hfe, List.map_cons, List.findIdx?_cons]
    simp [hthr]
  have ht0 : (timeGrid max_years)[0]? = some 0 := timeGrid_getElem?_zero hmy
  have hc0 : (cycleGrid max_years cycles_per_day)[0]? = some 0 := by
    rw [cycleGrid_getElem?, ht0]
    simp
  exact estimate_lifetime_of_findIdx?_some _ _ _ _ _ hfind ht0 hc0

/-- Witness for C8: constant fade = 20 % with `eol_threshold = 1`,
`max_years = 1`: the EOL is reported at `(0, 0)`. -/
theorem C8_witness :
    1 ≤ 1 ∧
    (((timeGrid 1).map (fun _ => (20 : ℚ))).length = 365 * 1) ∧
    (1 ≤ (1 : ℚ) ∧ 0 ≤ ((timeGrid 1).map (fun _ => (20 : ℚ))).headI) ∧
    estimate_lifetime (fun td _ _ => td.map (fun _ => 20)) 25 1 1 1
      = some (XVal.fin 0, XVal.fin 0) := by
  have hlen : ((timeGrid 1).map (fun _ => (20 : ℚ))).length = 365 * 1 := by
    rw [List.length_map, timeGrid_length]
  have hhead : ((timeGrid 1).map (fun _ => (20 : ℚ))).headI = 20 :=
    headI_map_const _ _ (timeGrid_ne_nil (by norm_num))
  have h0 : 0 ≤ ((timeGrid 1).map (fun _ => (20 : ℚ))).headI := by
    rw [hhead]
    norm_num
  exact ⟨le_refl 1, hlen, ⟨le_refl 1, h0⟩,
    C8_immediate_eol _ 25 1 1 1 (le_refl 1) hlen (Or.inl ⟨le_refl 1, h0⟩)⟩

/-- Claim C1: whenever some grid point has retention at or below
`eol_threshold` (non-strict comparison), `estimate_lifetime` returns
`(TimeGrid[i], CycleGrid[i])` for the smallest time-ascending index `i`
whose retention is `≤ eol_threshold`. -/
theorem C1_first_crossing (predict_fade : List ℚ → List ℚ → ℚ → List ℚ)
    (temperature cycles_per_day eol_threshold : ℚ) (max_years : ℕ)
    (hlen : (predict_fade (timeGrid max_years)
        (cycleGrid max_years cycles_per_day) temperature).length
      = 365 * max_years)
    (hex : ∃ j, ∃ hj : j < (retentionCurve predict_fade temperature
        cycles_per_day max_years).length,
      (retentionCurve predict_fade temperature cycles_per_day max_years).get
        ⟨j, hj⟩ ≤ eol_threshold) :
    ∃ i, ∃ hiR : i < (retentionCurve predict_fade temperature cycles_per_day
        max_years).length,
      ∃ hiT : i < (timeGrid max_years).length,
      ∃ hiC : i < (cycleGrid max_years cycles_per_day).length,
      (retentionCurve predict_fade temperature cycles_per_day max_years).get
          ⟨i, hiR⟩ ≤ eol_threshold ∧
      (∀ j (hj : j < i), eol_threshold <
        (retentionCurve predict_fade temperature cycles_per_day max_years).get
          ⟨j, Nat.lt_trans hj hiR⟩) ∧
      estimate_lifetime predict_fade temperature cycles_per_day eol_threshold
          max_years
        = some (XVal.fin ((timeGrid max_years).get ⟨i, hiT⟩),
            XVal.fin ((cycleGrid max_years cycles_per_day).get ⟨i, hiC⟩)) := by
  obtain ⟨j, hj, hjle⟩ := hex
  have hexists : ∃ x, x ∈ retentionCurve predict_fade temperature
      cycles_per_day max_years ∧ (fun r => decide (r ≤ eol_threshold)) x := by
    exact ⟨_, List.get_mem _ _ _, decide_eq_true hjle⟩
  have hfind := List.findIdx?_eq_some_of_exists hexists
  obtain ⟨hiR, hpi, hbefore⟩ := List.findIdx?_eq_some_iff_getElem.mp hfind
  set i := (retentionCurve predict_fade temperature cycles_per_day
    max_years).findIdx (fun r => decide (r ≤ eol_threshold)) with hidef
  have hiT : i < (timeGrid max_years).length := by
    rw [timeGrid_length]
    rw [retentionCurve_length, hlen] at hiR
    exact hiR
  have hiC : i < (cycleGrid max_years cycles_per_day).length := by
    rw [cycleGrid_length]
    rw [retentionCurve_length, hlen] at hiR
    exact hiR
  refine ⟨i, hiR, hiT, hiC, ?_, ?_, ?_⟩
  · rw [List.get_eq_getElem]
    exact of_decide_eq_true hpi
  · intro k hk
    have := hbefore k hk
    rw [List.get_eq_getElem]
    exact lt_of_not_le (fun hle => this (decide_eq_true hle))
  · exact estimate_lifetime_of_findIdx?_some _ _ _ _ _ hfind
      (by rw [List.getElem?_eq_getElem hiT, List.get_eq_getElem])
      (by rw [List.getElem?_eq_getElem hiC, List.get_eq_getElem])

/-- Witness for C1: constant fade = 20 % with `eol_threshold = 0.8`,
`max_years = 1`: retention equals the threshold already at index 0, so the
first crossing exists. -/
theorem C1_witness :
    (((timeGrid 1).map (fun _ => (20 : ℚ))).length = 365 * 1) ∧
    (∃ j, ∃ hj : j < (retentionCurve (fun td _ _ => td.map (fun _ => 20)) 25
        1 1).length,
      (retentionCurve (fun td _ _ => td.map (fun _ => 20)) 25 1 1).get
        ⟨j, hj⟩ ≤ (4 / 5 : ℚ)) ∧
    (∃ i, ∃ hiR : i < (retentionCurve (fun td _ _ => td.map (fun _ => 20)) 25
        1 1).length,
      ∃ hiT : i < (timeGrid 1).length,
      ∃ hiC : i < (cycleGrid 1 1).length,
      (retentionCurve (fun td _ _ => td.map (fun _ => 20)) 25 1 1).get
          ⟨i, hiR⟩ ≤ (4 / 5 : ℚ) ∧
      (∀ j (hj : j < i), (4 / 5 : ℚ) <
        (retentionCurve (fun td _ _ => td.map (fun _ => 20)) 25 1 1).get
          ⟨j, Nat.lt_trans hj hiR⟩) ∧
      estimate_lifetime (fun td _ _ => td.map (fun _ => 20)) 25 1 (4 / 5) 1
        = some (XVal.fin ((timeGrid 1).get ⟨i, hiT⟩),
            XVal.fin ((cycleGrid 1 1).get ⟨i, hiC⟩))) := by
  have hlen : (((timeGrid 1).map (fun _ => (20 : ℚ)))).length = 365 * 1 := by
    rw [List.length_map, timeGrid_length]
  have hR : (retentionCurve (fun td _ _ => td.map (fun _ => 20)) 25 1
      1).length = 365 := by
    rw [retentionCurve_length, List.length_map, timeGrid_length]
  have h0 : 0 < (retentionCurve (fun td _ _ => td.map (fun _ => 20)) 25 1
      1).length := by
    rw [hR]
    norm_num
  have hget : (retentionCurve (fun td _ _ => td.map (fun _ => 20)) 25 1 1).get
      ⟨0, h0⟩ ≤ (4 / 5 : ℚ) := by
    simp only [retentionCurve, List.get_eq_getElem, List.getElem_map]
    norm_num
  exact ⟨hlen, ⟨0, h0, hget⟩,
    C1_first_crossing _ 25 1 (4 / 5) 1 hlen ⟨0, h0, hget⟩⟩

/-- Counterexample to C3 as stated: with `max_years = 1` the second grid
point is `365/364` days, not `1` day, and the last grid point is exactly
`365` days, so the grid is neither one-sample-per-day nor half-open. -/
theorem C3_counterexample :
    (timeGrid 1)[1]? = some (365 / 364) ∧ ((365 : ℚ) / 364) ≠ 1 ∧
    (timeGrid 1).getLast? = some 365 := by
  refine ⟨?_, by norm_num, ?_⟩
  · rw [timeGrid_getElem? (by norm_num) (by norm_num)]
    norm_num
  · rw [List.getLast?_eq_getElem?, timeGrid_length]
    rw [timeGrid_getElem? (by norm_num) (by norm_num)]
    norm_num

/-- Claim C3 (amended): `estimate_lifetime` builds a TimeGrid of exactly
`max_years*365` samples via `np.linspace(0, max_years*365, max_years*365)`,
spanning the closed interval `[0, max_years*365]` days with
`TimeGrid[i] = i * (365*max_years)/(365*max_years - 1)` (so the step is
slightly above one day, not one sample per day), and a CycleGrid of the same
length with `CycleGrid[i] = TimeGrid[i] * cycles_per_day` for every index. -/
theorem C3_amended (max_years : ℕ) (cycles_per_day : ℚ)
    (hmy : 1 ≤ max_years) :
    (timeGrid max_years).length = 365 * max_years ∧
    (cycleGrid max_years cycles_per_day).length = 365 * max_years ∧
    (∀ i, i < 365 * max_years →
      (timeGrid max_years)[i]? =
        some (365 * (max_years : ℚ) * i / (365 * (max_years : ℚ) - 1))) ∧
    (∀ i : ℕ, (cycleGrid max_years cycles_per_day)[i]? =
      ((timeGrid max_years)[i]?).map (fun t => t * cycles_per_day)) ∧
    (timeGrid max_years)[0]? = some 0 ∧
    (timeGrid max_years).getLast? = some (365 * (max_years : ℚ)) := by
  refine ⟨timeGrid_length _, cycleGrid_length _ _,
    fun i hi => timeGrid_getElem? hmy hi,
    fun i : ℕ => cycleGrid_getElem? _ _ _,
    timeGrid_getElem?_zero hmy, ?_⟩
  rw [List.getLast?_eq_getElem?, timeGrid_length]
  have hi : 365 * max_years - 1 < 365 * max_years := by omega
  rw [timeGrid_getElem? hmy hi]
  have h1 : 1 ≤ 365 * max_years := by omega
  have hcast : ((365 * max_years - 1 : ℕ) : ℚ)
      = 365 * (max_years : ℚ) - 1 := by
    push_cast [Nat.cast_sub h1]
    ring
  rw [hcast]
  have hne : 365 * (max_years : ℚ) - 1 ≠ 0 := by
    have hmq : (1 : ℚ) ≤ (max_years : ℚ) := by exact_mod_cast hmy
    nlinarith
  rw [mul_div_assoc, div_self hne, mul_one]

/-- Witness for the amended C3 at `max_years = 1`, `cycles_per_day = 1`. -/
theorem C3_amended_witness :
    1 ≤ 1 ∧
    ((timeGrid 1).length = 365 * 1 ∧
    (cycleGrid 1 1).length = 365 * 1 ∧
    (∀ i : ℕ, i < 365 * 1 →
      (timeGrid 1)[i]? =
        some (365 * ((1 : ℕ) : ℚ) * (i : ℚ) / (365 * ((1 : ℕ) : ℚ) - 1))) ∧
    (∀ i : ℕ, (cycleGrid 1 1)[i]? = ((timeGrid 1)[i]?).map (fun t => t * 1)) ∧
    (timeGrid 1)[0]? = some 0 ∧
    (timeGrid 1).getLast? = some (365 * ((1 : ℕ) : ℚ))) :=
  ⟨le_refl 1, C3_amended 1 1 (le_refl 1)⟩

theorem getElem?_zero_of_ne_nil {α : Type} [Inhabited α] (l : List α)
    (h : l ≠ []) : l[0]? = some l.headI := by
  cases l with
  | nil => exact absurd rfl h
  | cons x t => simp [List.headI]

/-- Claim C4: each sweep builds the single-point grids at
`time_years*365` days, evaluates the model once per swept value with the
other stressors fixed, and returns `(input, fades)` aligned one-to-one
with the input, in input order. -/
theorem C4_sweeps_pointwise
    (m1 : List ℚ → List ℚ → ℚ → List ℚ)
    (m2 m3 : List ℚ → List ℚ → ℚ → ℚ → List ℚ)
    (temp_range dod_values c_rates : List ℚ)
    (temperature time_years cycles_per_day : ℚ)
    (h1 : ∀ v, m1 [time_years * 365] [time_years * 365 * cycles_per_day] v
      ≠ [])
    (h2 : ∀ v, m2 [time_years * 365] [time_years * 365 * cycles_per_day]
      temperature v ≠ [])
    (h3 : ∀ v, m3 [time_years * 365] [time_years * 365 * cycles_per_day]
      temperature v ≠ []) :
    (∃ fades, temperature_sweep m1 temp_range time_years cycles_per_day
        = some (temp_range, fades) ∧
      fades.length = temp_range.length ∧
      ∀ i (hi : i < temp_range.length) (hi' : i < fades.length),
        fades.get ⟨i, hi'⟩ = (m1 [time_years * 365]
          [time_years * 365 * cycles_per_day]
          (temp_range.get ⟨i, hi⟩)).headI) ∧
    (∃ fades, dod_sweep m2 dod_values temperature time_years cycles_per_day
        = some (dod_values, fades) ∧
      fades.length = dod_values.length ∧
      ∀ i (hi : i < dod_values.length) (hi' : i < fades.length),
        fades.get ⟨i, hi'⟩ = (m2 [time_years * 365]
          [time_years * 365 * cycles_per_day] temperature
          (dod_values.get ⟨i, hi⟩)).headI) ∧
    (∃ fades, crate_sweep m3 c_rates temperature time_years cycles_per_day
        = some (c_rates, fades) ∧
      fades.length = c_rates.length ∧
      ∀ i (hi : i < c_rates.length) (hi' : i < fades.length),
        fades.get ⟨i, hi'⟩ = (m3 [time_years * 365]
          [time_years * 365 * cycles_per_day] temperature
          (c_rates.get ⟨i, hi⟩)).headI) := by
  refine ⟨⟨temp_range.map (fun v => (m1 [time_years * 365]
      [time_years * 365 * cycles_per_day] v).headI), ?_, ?_, ?_⟩,
    ⟨dod_values.map (fun v => (m2 [time_years * 365]
      [time_years * 365 * cycles_per_day] temperature v).headI), ?_, ?_, ?_⟩,
    ⟨c_rates.map (fun v => (m3 [time_years * 365]
      [time_years * 365 * cycles_per_day] temperature v).headI), ?_, ?_, ?_⟩⟩
  · unfold temperature_sweep
    rw [mapM_eq_some_map _ _ temp_range
      (fun v _ => getElem?_zero_of_ne_nil _ (h1 v))]
    rfl
  · exact List.length_map _ _
  · intro i hi hi'
    simp [List.get_eq_getElem, List.getElem_map]
  · unfold dod_sweep
    rw [mapM_eq_some_map _ _ dod_values
      (fun v _ => getElem?_zero_of_ne_nil _ (h2 v))]
    rfl
  · exact List.length_map _ _
  · intro i hi hi'
    simp [List.get_eq_getElem, List.getElem_map]
  · unfold crate_sweep
    rw [mapM_eq_some_map _ _ c_rates
      (fun v _ => getElem?_zero_of_ne_nil _ (h3 v))]
    rfl
  · exact List.length_map _ _
  · intro i hi hi'
    simp [List.get_eq_getElem, List.getElem_map]

/-- Witness for C4: a model whose fade equals the swept value, on concrete
two-point sweeps. -/
theorem C4_witness :
    (∀ v : ℚ, (fun td _ x => td.map (fun _ => x) : List ℚ → List ℚ → ℚ →
      List ℚ) [(10 : ℚ) * 365] [(10 : ℚ) * 365 * 1] v ≠ []) ∧
    (∃ fades, temperature_sweep (fun td _ x => td.map (fun _ => x))
        [10, 25] 10 1 = some ([10, 25], fades) ∧
      fades.length = ([10, 25] : List ℚ).length ∧
      ∀ i (hi : i < ([10, 25] : List ℚ).length) (hi' : i < fades.length),
        fades.get ⟨i, hi'⟩ = ((fun td _ x => td.map (fun _ => x) : List ℚ →
          List ℚ → ℚ → List ℚ) [(10 : ℚ) * 365] [(10 : ℚ) * 365 * 1]
          (([10, 25] : List ℚ).get ⟨i, hi⟩)).headI) := by
  have h1 : ∀ v : ℚ, (fun td _ x => td.map (fun _ => x) : List ℚ → List ℚ →
      ℚ → List ℚ) [(10 : ℚ) * 365] [(10 : ℚ) * 365 * 1] v ≠ [] := by
    intro v
    simp
  have h2 : ∀ v : ℚ, (fun td _ _ d => td.map (fun _ => d) : List ℚ → List ℚ
      → ℚ → ℚ → List ℚ) [(10 : ℚ) * 365] [(10 : ℚ) * 365 * 1] 25 v ≠ [] := by
    intro v
    simp
  exact ⟨h1, (C4_sweeps_pointwise (fun td _ x => td.map (fun _ => x))
    (fun td _ _ d => td.map (fun _ => d)) (fun td _ _ c => td.map (fun _ => c))
    [10, 25] [] [] 25 10 1 h1 h2 h2).1⟩

/-- Claim C5: over spec-conformant scenario bundles (a temperature plus
stress parameters, with no key colliding with `estimate_lifetime`'s own
named parameters) `compare_scenarios` produces one entry per scenario,
keyed by name in input order; each entry holds
`eol_years = eol_time_days / 365`, the raw `eol_cycles`, and the scenario's
temperature, from `estimate_lifetime` run with that scenario's temperature
and stress parameters. -/
theorem C5_compare_scenarios {α : Type}
    (predict_fade : List ℚ → List ℚ → ℚ → α → List ℚ)
    (scenarios : List (String × ScenarioParams α))
    (cycles_per_day eol_threshold : ℚ)
    (hbag : ∀ s ∈ scenarios, s.2.max_years? = none ∧
      s.2.cycles_per_day? = none ∧ s.2.eol_threshold? = none)
    (hm : ∀ s ∈ scenarios,
      (predict_fade (timeGrid 30) (cycleGrid 30 cycles_per_day)
        s.2.temperature s.2.stress).length = 365 * 30) :
    ∃ l, compare_scenarios predict_fade scenarios cycles_per_day
        eol_threshold = some l ∧
      l.length = scenarios.length ∧
      ∀ i (hi : i < scenarios.length) (hi' : i < l.length),
        (l.get ⟨i, hi'⟩).1 = (scenarios.get ⟨i, hi⟩).1 ∧
        ∃ t c, estimate_lifetime
            (fun td cyc temp => predict_fade td cyc temp
              (scenarios.get ⟨i, hi⟩).2.stress)
            (scenarios.get ⟨i, hi⟩).2.temperature cycles_per_day
            eol_threshold 30 = some (t, c) ∧
          (l.get ⟨i, hi'⟩).2 = ScenarioResult.mk (xdiv365 t) c
            (scenarios.get ⟨i, hi⟩).2.temperature := by
  have hsome : ∀ s ∈ scenarios,
      ((if s.2.cycles_per_day?.isSome || s.2.eol_threshold?.isSome then none
        else
          (estimate_lifetime
              (fun td cyc temp => predict_fade td cyc temp s.2.stress)
              s.2.temperature cycles_per_day eol_threshold
              (s.2.max_years?.getD 30)).map
            (fun r => (s.1, ScenarioResult.mk (xdiv365 r.1) r.2
              s.2.temperature)) : Option (String × ScenarioResult))).isSome
        = true := by
    intro s hs
    obtain ⟨hmy0, hcpd0, hthr0⟩ := hbag s hs
    rw [hmy0, hcpd0, hthr0]
    show ((estimate_lifetime
        (fun td cyc temp => predict_fade td cyc temp s.2.stress)
        s.2.temperature cycles_per_day eol_threshold 30).map
      (fun r => (s.1, ScenarioResult.mk (xdiv365 r.1) r.2
        s.2.temperature))).isSome = true
    have h := estimate_lifetime_isSome
      (fun td cyc temp => predict_fade td cyc temp s.2.stress)
      s.2.temperature cycles_per_day eol_threshold 30 (le_of_eq (hm s hs))
    cases hx : estimate_lifetime
        (fun td cyc temp => predict_fade td cyc temp s.2.stress)
        s.2.temperature cycles_per_day eol_threshold 30 with
    | none => rw [hx] at h; cases h
    | some r => rfl
  obtain ⟨l, hmap, hlen', hidx⟩ := mapM_eq_some_of_isSome _ scenarios hsome
  refine ⟨l, hmap, hlen', ?_⟩
  intro i hi hi'
  have h := hidx i hi hi'
  obtain ⟨hmy0, hcpd0, hthr0⟩ := hbag _ (List.get_mem scenarios i hi)
  have hfx : (if (scenarios.get ⟨i, hi⟩).2.cycles_per_day?.isSome
        || (scenarios.get ⟨i, hi⟩).2.eol_threshold?.isSome then none
      else (estimate_lifetime (fun td cyc temp => predict_fade td cyc temp
            (scenarios.get ⟨i, hi⟩).2.stress)
          (scenarios.get ⟨i, hi⟩).2.temperature cycles_per_day eol_threshold
          ((scenarios.get ⟨i, hi⟩).2.max_years?.getD 30)).map
        (fun r => ((scenarios.get ⟨i, hi⟩).1,
          ScenarioResult.mk (xdiv365 r.1) r.2
            (scenarios.get ⟨i, hi⟩).2.temperature)))
      = some (l.get ⟨i, hi'⟩) := h
  rw [hmy0, hcpd0, hthr0] at hfx
  have h' : (estimate_lifetime (fun td cyc temp => predict_fade td cyc temp
        (scenarios.get ⟨i, hi⟩).2.stress)
      (scenarios.get ⟨i, hi⟩).2.temperature cycles_per_day eol_threshold
      30).map
      (fun r => ((scenarios.get ⟨i, hi⟩).1,
        ScenarioResult.mk (xdiv365 r.1) r.2
          (scenarios.get ⟨i, hi⟩).2.temperature))
      = some (l.get ⟨i, hi'⟩) := hfx
  rcases Option.map_eq_some'.mp h' with ⟨r, hr, hentry⟩
  refine ⟨by rw [← hentry], r.1, r.2, hr, by rw [← hentry]⟩

/-- Witness for C5: two scenarios differing only in temperature with a
constant-fade model and plain stress-parameter bags. -/
theorem C5_witness :
    (∀ s ∈ ([("hot", ScenarioParams.mk 45 none none none ()),
        ("cold", ScenarioParams.mk 10 none none none ())] :
        List (String × ScenarioParams Unit)),
      s.2.max_years? = none ∧ s.2.cycles_per_day? = none ∧
        s.2.eol_threshold? = none) ∧
    (∀ s ∈ ([("hot", ScenarioParams.mk 45 none none none ()),
        ("cold", ScenarioParams.mk 10 none none none ())] :
        List (String × ScenarioParams Unit)),
      ((fun td _ _ _ => td.map (fun _ => (20 : ℚ)) : List ℚ → List ℚ → ℚ →
        Unit → List ℚ) (timeGrid 30) (cycleGrid 30 1) s.2.temperature
        s.2.stress).length = 365 * 30) ∧
    (∃ l, compare_scenarios (fun td _ _ _ => td.map (fun _ => (20 : ℚ)))
        ([("hot", ScenarioParams.mk 45 none none none ()),
          ("cold", ScenarioParams.mk 10 none none none ())] :
          List (String × ScenarioParams Unit)) 1 (4 / 5) = some l ∧
      l.length = ([("hot", ScenarioParams.mk 45 none none none ()),
        ("cold", ScenarioParams.mk 10 none none none ())] :
        List (String × ScenarioParams Unit)).length ∧
      ∀ i (hi : i < ([("hot", ScenarioParams.mk 45 none none none ()),
          ("cold", ScenarioParams.mk 10 none none none ())] :
          List (String × ScenarioParams Unit)).length) (hi' : i < l.length),
        (l.get ⟨i, hi'⟩).1 = (([("hot", ScenarioParams.mk 45 none none none ()),
          ("cold", ScenarioParams.mk 10 none none none ())] :
          List (String × ScenarioParams Unit)).get ⟨i, hi⟩).1 ∧
        ∃ t c, estimate_lifetime
            (fun td cyc temp => (fun td _ _ _ => td.map (fun _ => (20 : ℚ))
              : List ℚ → List ℚ → ℚ → Unit → List ℚ) td cyc temp
              ((([("hot", ScenarioParams.mk 45 none none none ()),
                ("cold", ScenarioParams.mk 10 none none none ())] :
                List (String × ScenarioParams Unit)).get ⟨i, hi⟩).2.stress))
            ((([("hot", ScenarioParams.mk 45 none none none ()),
              ("cold", ScenarioParams.mk 10 none none none ())] :
              List (String × ScenarioParams Unit)).get ⟨i, hi⟩).2.temperature)
            1 (4 / 5) 30
          = some (t, c) ∧
          (l.get ⟨i, hi'⟩).2 = ScenarioResult.mk (xdiv365 t) c
            ((([("hot", ScenarioParams.mk 45 none none none ()),
              ("cold", ScenarioParams.mk 10 none none none ())] :
              List (String × ScenarioParams Unit)).get ⟨i, hi⟩).2.temperature)) := by
  have hbag : ∀ s ∈ ([("hot", ScenarioParams.mk 45 none none none ()),
      ("cold", ScenarioParams.mk 10 none none none ())] :
      List (String × ScenarioParams Unit)),
      s.2.max_years? = none ∧ s.2.cycles_per_day? = none ∧
        s.2.eol_threshold? = none := by
    intro s hs
    rcases List.mem_cons.mp hs with rfl | hs'
    · exact ⟨rfl, rfl, rfl⟩
    · rcases List.mem_cons.mp hs' with rfl | hs''
      · exact ⟨rfl, rfl, rfl⟩
      · exact absurd hs'' (List.not_mem_nil s)
  have hm : ∀ s ∈ ([("hot", ScenarioParams.mk 45 none none none ()),
      ("cold", ScenarioParams.mk 10 none none none ())] :
      List (String × ScenarioParams Unit)),
      ((fun td _ _ _ => td.map (fun _ => (20 : ℚ)) : List ℚ → List ℚ → ℚ →
        Unit → List ℚ) (timeGrid 30) (cycleGrid 30 1) s.2.temperature
        s.2.stress).length = 365 * 30 := by
    intro s hs
    show ((timeGrid 30).map (fun _ => (20 : ℚ))).length = 365 * 30
    rw [List.length_map, timeGrid_length]
  exact ⟨hbag, hm, C5_compare_scenarios _ _ 1 (4 / 5) hbag hm⟩

theorem getElem_eq_of_getElem?_eq_some {α : Type} {l : List α} {i : ℕ}
    {v : α} (hi : i < l.length) (h : l[i]? = some v) :
    l.get ⟨i, hi⟩ = v := by
  rw [List.get_eq_getElem]
  have h2 := List.getElem?_eq_getElem hi
  rw [h] at h2
  exact (Option.some.inj h2).symm

theorem grid50_val_lt {j : ℕ} (hj : j < 14600) :
    365 * ((50 : ℕ) : ℚ) * (j : ℚ) / (365 * ((50 : ℕ) : ℚ) - 1) < 14600 := by
  have hjq : (j : ℚ) ≤ 14599 := by
    have hj' : j ≤ 14599 := by omega
    exact_mod_cast hj'
  rw [div_lt_iff₀ (show (0 : ℚ) < 365 * ((50 : ℕ) : ℚ) - 1 by push_cast; norm_num)]
  push_cast
  nlinarith

theorem grid50_val_ge :
    (14600 : ℚ) ≤ 365 * ((50 : ℕ) : ℚ) * (((14600 : ℕ)) : ℚ)
      / (365 * ((50 : ℕ) : ℚ) - 1) := by
  rw [le_div_iff₀ (show (0 : ℚ) < 365 * ((50 : ℕ) : ℚ) - 1 by push_cast; norm_num)]
  push_cast
  norm_num

theorem grid50_val_eq :
    365 * ((50 : ℕ) : ℚ) * (((14600 : ℕ)) : ℚ) / (365 * ((50 : ℕ) : ℚ) - 1)
      = 266450000 / 18249 := by
  push_cast
  norm_num

/-- Counterexample to C10 as stated: a scenario bundle carrying a
`max_years` key is splatted into `estimate_lifetime` and binds its
`max_years` parameter by Python keyword capture, so the horizon becomes 50
years here and the reported `eol_years = 730000/18249 ≈ 40.0` exceeds 30:
the step-fade model stays at 0 % fade until day 14600 (year 40) and jumps
to 20 % from there on. -/
theorem C10_counterexample :
    compare_scenarios
        (fun td _ _ (_ : Unit) => td.map
          (fun t => if (14600 : ℚ) ≤ t then 20 else 0))
        [("late", ScenarioParams.mk 25 (some 50) none none ())] 1 (4 / 5)
      = some [("late", ScenarioResult.mk (XVal.fin (730000 / 18249))
          (XVal.fin (266450000 / 18249)) 25)] ∧
    ¬ ((730000 / 18249 : ℚ) ≤ 30) := by
  have hfind : (retentionCurve
      (fun td cyc temp => (fun td _ _ (_ : Unit) => td.map
        (fun t => if (14600 : ℚ) ≤ t then 20 else 0)) td cyc temp ())
      25 1 50).findIdx? (fun r => decide (r ≤ (4 / 5 : ℚ)))
      = some 14600 := by
    show (((timeGrid 50).map
        (fun t => if (14600 : ℚ) ≤ t then (20 : ℚ) else 0)).map
        (fun f => 1 - f / 100)).findIdx? (fun r => decide (r ≤ (4 / 5 : ℚ)))
      = some 14600
    rw [List.findIdx?_map, List.findIdx?_map]
    have hpq : (((fun r => decide (r ≤ (4 / 5 : ℚ))) ∘ (fun f => 1 - f / 100))
        ∘ (fun t => if (14600 : ℚ) ≤ t then (20 : ℚ) else 0))
        = fun t => decide ((14600 : ℚ) ≤ t) := by
      funext t
      by_cases hc : (14600 : ℚ) ≤ t
      · show decide ((1 - (if (14600 : ℚ) ≤ t then (20 : ℚ) else 0) / 100)
            ≤ (4 / 5 : ℚ)) = decide ((14600 : ℚ) ≤ t)
        rw [if_pos hc, decide_eq_true hc,
          decide_eq_true (show (1 - (20 : ℚ) / 100) ≤ (4 / 5 : ℚ) by norm_num)]
      · show decide ((1 - (if (14600 : ℚ) ≤ t then (20 : ℚ) else 0) / 100)
            ≤ (4 / 5 : ℚ)) = decide ((14600 : ℚ) ≤ t)
        rw [if_neg hc, decide_eq_false hc,
          decide_eq_false (show ¬ ((1 - (0 : ℚ) / 100) ≤ (4 / 5 : ℚ)) by norm_num)]
    rw [hpq]
    apply List.findIdx?_eq_some_iff_getElem.mpr
    have hlen50 : (timeGrid 50).length = 365 * 50 := timeGrid_length 50
    have h14len : (14600 : ℕ) < (timeGrid 50).length := by
      rw [hlen50]
      norm_num
    refine ⟨h14len, ?_, ?_⟩
    · have hv := timeGrid_getElem? (show (1 : ℕ) ≤ 50 by norm_num)
        (show (14600 : ℕ) < 365 * 50 by norm_num)
      have hval := getElem_eq_of_getElem?_eq_some h14len hv
      show decide ((14600 : ℚ) ≤ (timeGrid 50).get ⟨14600, h14len⟩) = true
      rw [hval]
      exact decide_eq_true grid50_val_ge
    · intro j hj
      have hjlen : j < (timeGrid 50).length := Nat.lt_trans hj h14len
      have hj50 : j < 365 * 50 := hlen50 ▸ hjlen
      have hv := timeGrid_getElem? (show (1 : ℕ) ≤ 50 by norm_num) hj50
      have hval := getElem_eq_of_getElem?_eq_some hjlen hv
      show ¬ (decide ((14600 : ℚ) ≤ (timeGrid 50).get ⟨j, Nat.lt_trans hj h14len⟩) = true)
      rw [hval]
      exact fun hdec => absurd (of_decide_eq_true hdec)
        (not_le.mpr (grid50_val_lt hj))
  have ht : (timeGrid 50)[14600]? = some (266450000 / 18249 : ℚ) := by
    rw [timeGrid_getElem? (show (1 : ℕ) ≤ 50 by norm_num)
      (show (14600 : ℕ) < 365 * 50 by norm_num)]
    exact congrArg some grid50_val_eq
  have hc : (cycleGrid 50 1)[14600]? = some (266450000 / 18249 : ℚ) := by
    rw [cycleGrid_getElem?, ht]
    simp
  have hel50 : estimate_lifetime
      (fun td cyc temp => (fun td _ _ (_ : Unit) => td.map
        (fun t => if (14600 : ℚ) ≤ t then 20 else 0)) td cyc temp ())
      25 1 (4 / 5) 50
      = some (XVal.fin (266450000 / 18249), XVal.fin (266450000 / 18249)) :=
    estimate_lifetime_of_findIdx?_some _ _ _ _ _ hfind ht hc
  have hf : ∀ x ∈ ([("late", ScenarioParams.mk 25 (some 50) none none ())] :
      List (String × ScenarioParams Unit)),
      (if x.2.cycles_per_day?.isSome || x.2.eol_threshold?.isSome then none
       else (estimate_lifetime (fun td cyc temp =>
             (fun td _ _ (_ : Unit) => td.map
               (fun t => if (14600 : ℚ) ≤ t then 20 else 0))
               td cyc temp x.2.stress)
           x.2.temperature 1 (4 / 5) (x.2.max_years?.getD 30)).map
         (fun r => (x.1, ScenarioResult.mk (xdiv365 r.1) r.2
           x.2.temperature)))
      = some ("late", ScenarioResult.mk (XVal.fin (730000 / 18249))
          (XVal.fin (266450000 / 18249)) 25) := by
    intro x hx
    rcases List.mem_cons.mp hx with rfl | hx'
    · show (estimate_lifetime (fun td cyc temp =>
          (fun td _ _ (_ : Unit) => td.map
            (fun t => if (14600 : ℚ) ≤ t then 20 else 0))
            td cyc temp ()) 25 1 (4 / 5) 50).map
          (fun r => ("late", ScenarioResult.mk (xdiv365 r.1) r.2 25))
        = some ("late", ScenarioResult.mk (XVal.fin (730000 / 18249))
            (XVal.fin (266450000 / 18249)) 25)
      rw [hel50]
      show some _ = some _
      norm_num [xdiv365]
    · exact absurd hx' (List.not_mem_nil x)
  refine ⟨?_, by norm_num⟩
  unfold compare_scenarios
  rw [mapM_eq_some_map _ (fun _ => ("late", ScenarioResult.mk
      (XVal.fin (730000 / 18249)) (XVal.fin (266450000 / 18249)) 25)) _ hf]
  rfl

/-- Claim C10 (amended): `compare_scenarios` splats each scenario's bag
into `estimate_lifetime`, so a `max_years` key in a bag binds the horizon
parameter by keyword capture; only when no scenario bundle carries a
`max_years` key does every call run at the default 30-year horizon, and
then every finite `eol_years` in the output is at most 30. -/
theorem C10_horizon_bound {α : Type}
    (predict_fade : List ℚ → List ℚ → ℚ → α → List ℚ)
    (scenarios : List (String × ScenarioParams α))
    (cycles_per_day eol_threshold : ℚ)
    (l : List (String × ScenarioResult))
    (hnomy : ∀ s ∈ scenarios, s.2.max_years? = none)
    (h : compare_scenarios predict_fade scenarios cycles_per_day
      eol_threshold = some l) :
    ∀ e ∈ l, ∀ y : ℚ, e.2.eol_years = XVal.fin y → y ≤ 30 := by
  intro e he y hy
  unfold compare_scenarios at h
  obtain ⟨s, hs, hfs⟩ := mapM_mem _ scenarios l h e he
  have hfx : (if s.2.cycles_per_day?.isSome || s.2.eol_threshold?.isSome
      then none
      else (estimate_lifetime (fun td cyc temp => predict_fade td cyc temp
            s.2.stress) s.2.temperature cycles_per_day eol_threshold
          (s.2.max_years?.getD 30)).map
        (fun r => (s.1, ScenarioResult.mk (xdiv365 r.1) r.2
          s.2.temperature))) = some e := hfs
  rw [hnomy s hs] at hfx
  by_cases hcond : (s.2.cycles_per_day?.isSome
      || s.2.eol_threshold?.isSome) = true
  · rw [if_pos hcond] at hfx
    cases hfx
  · rw [if_neg hcond] at hfx
    have h' : (estimate_lifetime (fun td cyc temp => predict_fade td cyc
          temp s.2.stress) s.2.temperature cycles_per_day eol_threshold
        30).map
        (fun r => (s.1, ScenarioResult.mk (xdiv365 r.1) r.2
          s.2.temperature)) = some e := hfx
    rcases Option.map_eq_some'.mp h' with ⟨r, hr, hentry⟩
    have he2 : e.2.eol_years = xdiv365 r.1 := by
      rw [← hentry]
    rw [he2] at hy
    cases hr1 : r.1 with
    | inf =>
      rw [hr1] at hy
      simp [xdiv365] at hy
    | fin t =>
      rw [hr1] at hy
      simp only [xdiv365] at hy
      have hel : estimate_lifetime
          (fun td cyc temp => predict_fade td cyc temp s.2.stress)
          s.2.temperature cycles_per_day eol_threshold 30
          = some (XVal.fin t, r.2) := by
        rw [← hr1]
        exact hr
      have hmem := estimate_lifetime_fin_mem_timeGrid _ _ _ _ _ hel
      have hle : t ≤ 365 * ((30 : ℕ) : ℚ) := timeGrid_mem_le hmem
      have hy' : y = t / 365 := by
        cases hy
        rfl
      rw [hy', div_le_iff₀ (by norm_num : (0 : ℚ) < 365)]
      norm_num at hle ⊢
      linarith

/-- A constant fade of 20 % meets the default threshold 0.8 exactly at grid
index 0, for any temperature, cycle rate and positive horizon. -/
theorem estimate_lifetime_constFade20 (temp cpd : ℚ) (my : ℕ)
    (hmy : 1 ≤ my) :
    estimate_lifetime (fun td _ _ => td.map (fun _ => 20)) temp cpd (4 / 5)
      my = some (XVal.fin 0, XVal.fin 0) := by
  have hfind : (retentionCurve (fun td _ _ => td.map (fun _ => 20)) temp cpd
      my).findIdx? (fun r => decide (r ≤ (4 / 5 : ℚ))) = some 0 := by
    unfold retentionCurve
    cases htd : timeGrid my with
    | nil => exact absurd htd (timeGrid_ne_nil hmy)
    | cons t0 ts =>
      simp only [List.map_cons, List.findIdx?_cons]
      norm_num
  have ht0 : (timeGrid my)[0]? = some 0 := timeGrid_getElem?_zero hmy
  have hc0 : (cycleGrid my cpd)[0]? = some 0 := by
    rw [cycleGrid_getElem?, ht0]
    simp
  exact estimate_lifetime_of_findIdx?_some _ _ _ _ _ hfind ht0 hc0

/-- Witness for the amended C10: one scenario whose bag has no `max_years`
key, with a constant-fade model whose EOL is at grid index 0, so
`eol_years = 0 ≤ 30`. -/
theorem C10_witness :
    (∀ s ∈ ([("hot", ScenarioParams.mk 45 none none none ())] :
        List (String × ScenarioParams Unit)), s.2.max_years? = none) ∧
    compare_scenarios (fun td _ _ _ => td.map (fun _ => (20 : ℚ)))
        ([("hot", ScenarioParams.mk 45 none none none ())] :
          List (String × ScenarioParams Unit)) 1 (4 / 5)
      = some [("hot", ScenarioResult.mk (XVal.fin 0) (XVal.fin 0) 45)] ∧
    (∀ e ∈ [("hot", ScenarioResult.mk (XVal.fin 0) (XVal.fin 0) 45)],
      ∀ y : ℚ, e.2.eol_years = XVal.fin y → y ≤ 30) := by
  have hnomy : ∀ s ∈ ([("hot", ScenarioParams.mk 45 none none none ())] :
      List (String × ScenarioParams Unit)), s.2.max_years? = none := by
    intro s hs
    rcases List.mem_cons.mp hs with rfl | hs'
    · rfl
    · exact absurd hs' (List.not_mem_nil s)
  have hel : estimate_lifetime (fun td cyc temp =>
      (fun td _ _ _ => td.map (fun _ => (20 : ℚ)) : List ℚ → List ℚ → ℚ →
        Unit → List ℚ) td cyc temp (() : Unit)) 45 1 (4 / 5) 30
      = some (XVal.fin 0, XVal.fin 0) :=
    estimate_lifetime_constFade20 45 1 30 (by norm_num)
  have hf : ∀ x ∈ ([("hot", ScenarioParams.mk 45 none none none ())] :
      List (String × ScenarioParams Unit)),
      (if x.2.cycles_per_day?.isSome || x.2.eol_threshold?.isSome then none
       else (estimate_lifetime (fun td cyc temp =>
             (fun td _ _ _ => td.map (fun _ => (20 : ℚ)) : List ℚ → List ℚ
               → ℚ → Unit → List ℚ) td cyc temp x.2.stress)
           x.2.temperature 1 (4 / 5) (x.2.max_years?.getD 30)).map
         (fun r => (x.1, ScenarioResult.mk (xdiv365 r.1) r.2
           x.2.temperature)))
      = some ("hot", ScenarioResult.mk (XVal.fin 0) (XVal.fin 0) 45) := by
    intro x hx
    rcases List.mem_cons.mp hx with rfl | hx'
    · show (estimate_lifetime (fun td cyc temp =>
          (fun td _ _ _ => td.map (fun _ => (20 : ℚ)) : List ℚ → List ℚ → ℚ
            → Unit → List ℚ) td cyc temp ()) 45 1 (4 / 5) 30).map
          (fun r => ("hot", ScenarioResult.mk (xdiv365 r.1) r.2 45))
        = some ("hot", ScenarioResult.mk (XVal.fin 0) (XVal.fin 0) 45)
      rw [hel]
      show some _ = some _
      norm_num [xdiv365]
    · exact absurd hx' (List.not_mem_nil x)
  have h : compare_scenarios (fun td _ _ _ => td.map (fun _ => (20 : ℚ)))
      ([("hot", ScenarioParams.mk 45 none none none ())] :
        List (String × ScenarioParams Unit)) 1 (4 / 5)
      = some [("hot", ScenarioResult.mk (XVal.fin 0) (XVal.fin 0) 45)] := by
    unfold compare_scenarios
    rw [mapM_eq_some_map _ (fun _ => ("hot", ScenarioResult.mk (XVal.fin 0)
        (XVal.fin 0) 45)) _ hf]
    rfl
  exact ⟨hnomy, h, C10_horizon_bound _ _ 1 (4 / 5) _ hnomy h⟩

/-! ### ModelValidator lemmas -/

theorem npSub_eq_zipWith {p a : List ℚ} (h : p.length = a.length) :
    npSub p a = some (List.zipWith (fun x y => x - y) p a) := by
  rw [npSub, if_pos h]

theorem mean_of_ne_nil {l : List ℚ} (h : l ≠ []) :
    mean l = NpFloat.num (l.sum / l.length) := by
  rw [mean, if_neg h]

theorem NpFloat.mulQ_num (q c : ℚ) :
    (NpFloat.num q).mulQ c = NpFloat.num (q * c) := rfl

theorem sum_map_sq_nonneg (l : List ℚ) :
    0 ≤ (l.map (fun x => x ^ 2)).sum := by
  induction l with
  | nil => simp
  | cons x t ih =>
    simp only [List.map_cons, List.sum_cons]
    have hx : (0 : ℚ) ≤ x ^ 2 := sq_nonneg x
    linarith

theorem sum_map_sq_eq_zero_iff (l : List ℚ) :
    (l.map (fun x => x ^ 2)).sum = 0 ↔ ∀ x ∈ l, x = 0 := by
  induction l with
  | nil => simp
  | cons x t ih =>
    simp only [List.map_cons, List.sum_cons, List.mem_cons]
    constructor
    · intro h
      have h1 : (0 : ℚ) ≤ x ^ 2 := sq_nonneg x
      have h2 : 0 ≤ (t.map (fun x => x ^ 2)).sum := sum_map_sq_nonneg t
      have hx2 : x ^ 2 = 0 := by linarith
      have hs : (t.map (fun x => x ^ 2)).sum = 0 := by linarith
      have hx : x = 0 := sq_eq_zero_iff.mp hx2
      intro y hy
      rcases hy with rfl | hy
      · exact hx
      · exact (ih.mp hs) y hy
    · intro h
      have hx : x = 0 := h x (Or.inl rfl)
      have hs : (t.map (fun x => x ^ 2)).sum = 0 :=
        ih.mpr (fun y hy => h y (Or.inr hy))
      rw [hx, hs]
      norm_num

theorem zipWith_sub_all_zero_iff :
    ∀ (p a : List ℚ), p.length = a.length →
      ((∀ x ∈ List.zipWith (fun x y => x - y) p a, x = 0) ↔ p = a) := by
  intro p
  induction p with
  | nil =>
    intro a h
    cases a with
    | nil => simp
    | cons y u => simp at h
  | cons x t ih =>
    intro a h
    cases a with
    | nil => simp at h
    | cons y u =>
      have hlen : t.length = u.length := by simpa using h
      simp only [List.zipWith_cons_cons, List.mem_cons, List.cons.injEq]
      constructor
      · intro hz
        have hx : x - y = 0 := hz _ (Or.inl rfl)
        have ht : ∀ z ∈ List.zipWith (fun x y => x - y) t u, z = 0 :=
          fun z hzz => hz z (Or.inr hzz)
        exact ⟨by linarith, (ih u hlen).mp ht⟩
      · rintro ⟨rfl, rfl⟩
        intro z hz
        rcases hz with rfl | hz
        · ring
        · exact ((ih t rfl).mpr rfl) z hz

theorem npSub_eq_none_iff (p a : List ℚ) :
    npSub p a = none ↔
      p.length ≠ a.length ∧ p.length ≠ 1 ∧ a.length ≠ 1 := by
  rw [npSub]
  split_ifs with h1 h2 h3 <;> simp_all

theorem npSub_some_length {p a d : List ℚ} (h : npSub p a = some d) :
    d.length = a.length ∨ a.length = 1 := by
  rw [npSub] at h
  split_ifs at h with h1 h2 h3
  · cases h
    left
    rw [List.length_zipWith, h1, min_self]
  · cases h
    left
    exact List.length_map a _
  · cases h
    right
    exact h3

theorem calculate_mape_singleton (x y : ℚ) :
    calculate_mape [x] [y] = some (NpFloat.num (|(x - y) / y| * 100)) := by
  rw [calculate_mape,
    show npSub [x] [y] = some [x - y] from rfl, Option.some_bind,
    show npDiv [x - y] [y] = some [(x - y) / y] from rfl]
  simp only [Option.map_some', List.map_cons, List.map_nil]
  rw [mean_of_ne_nil (List.cons_ne_nil _ _), NpFloat.mulQ_num]
  simp only [Option.some.injEq, NpFloat.num.injEq]
  norm_num

theorem npDiv_isSome {d a : List ℚ} (h : d.length = a.length ∨ a.length = 1) :
    ∃ q, npDiv d a = some q := by
  rw [npDiv]
  by_cases h1 : d.length = a.length
  · rw [if_pos h1]
    exact ⟨_, rfl⟩
  · by_cases h2 : d.length = 1
    · rw [if_neg h1, if_pos h2]
      exact ⟨_, rfl⟩
    · have h3 : a.length = 1 := by tauto
      rw [if_neg h1, if_neg h2, if_pos h3]
      exact ⟨_, rfl⟩

theorem calculate_mape_eq_none_iff (p a : List ℚ) :
    calculate_mape p a = none ↔
      p.length ≠ a.length ∧ p.length ≠ 1 ∧ a.length ≠ 1 := by
  constructor
  · intro h
    by_contra hc
    have hsub : ∃ d, npSub p a = some d := by
      rw [npSub]
      by_cases h1 : p.length = a.length
      · rw [if_pos h1]
        exact ⟨_, rfl⟩
      · by_cases h2 : p.length = 1
        · rw [if_neg h1, if_pos h2]
          exact ⟨_, rfl⟩
        · have h3 : a.length = 1 := by tauto
          rw [if_neg h1, if_neg h2, if_pos h3]
          exact ⟨_, rfl⟩
    obtain ⟨d, hd⟩ := hsub
    rw [calculate_mape, hd, Option.some_bind] at h
    obtain ⟨q, hq⟩ := npDiv_isSome (npSub_some_length hd)
    rw [hq] at h
    cases h
  · intro h
    rw [calculate_mape, (npSub_eq_none_iff p a).mpr h]
    rfl

/-- Counterexample to C6 as stated: on the equal-length pair `([], [])`
the code takes `np.mean` of an empty array and `calculate_rmse` returns
NaN — not a nonnegative real and in particular not 0, although the two
sequences agree elementwise. -/
theorem C6_counterexample :
    ([] : List ℚ).length = ([] : List ℚ).length ∧ (([] : List ℚ) = []) ∧
    calculate_rmse [] [] = some RFloat.nan ∧
    RFloat.nan ≠ RFloat.num 0 :=
  ⟨rfl, rfl, rfl, fun hc => RFloat.noConfusion hc⟩

/-- Claim C6 (amended): for every pair of nonempty equal-length sequences,
`calculate_rmse` returns `sqrt(mean((predicted - actual)^2))`; the result
is nonnegative and zero exactly when the sequences agree elementwise. On
the empty pair the code instead returns NaN. -/
theorem C6_rmse_characterization (predicted actual : List ℚ)
    (hlen : predicted.length = actual.length) (hne : predicted ≠ []) :
    ∃ m : ℚ,
      mean ((List.zipWith (fun x y => x - y) predicted actual).map
        (fun x => x ^ 2)) = NpFloat.num m ∧
      mseQ predicted actual = some (NpFloat.num m) ∧
      calculate_rmse predicted actual
        = some (RFloat.num (Real.sqrt (m : ℝ))) ∧
      0 ≤ Real.sqrt (m : ℝ) ∧
      (Real.sqrt (m : ℝ) = 0 ↔ predicted = actual) := by
  have hdne : (List.zipWith (fun x y => x - y) predicted actual).map
      (fun x => x ^ 2) ≠ [] := by
    intro hmap
    have h0 := congrArg List.length hmap
    rw [List.length_map, List.length_zipWith, hlen, min_self,
      List.length_nil] at h0
    exact hne (List.length_eq_zero.mp (by omega))
  obtain ⟨m, hmval⟩ : ∃ m : ℚ, m = ((List.zipWith (fun x y => x - y)
      predicted actual).map (fun x => x ^ 2)).sum /
      ((((List.zipWith (fun x y => x - y) predicted actual).map
        (fun x => x ^ 2)).length : ℕ) : ℚ) := ⟨_, rfl⟩
  have hmean : mean ((List.zipWith (fun x y => x - y) predicted actual).map
      (fun x => x ^ 2)) = NpFloat.num m := by
    rw [mean_of_ne_nil hdne, hmval]
  have hmse : mseQ predicted actual = some (NpFloat.num m) := by
    rw [mseQ, npSub_eq_zipWith hlen, Option.map_some', hmean]
  have hmnonneg : 0 ≤ m := by
    rw [hmval]
    exact div_nonneg (sum_map_sq_nonneg _) (by exact_mod_cast Nat.zero_le _)
  refine ⟨m, hmean, hmse, ?_, Real.sqrt_nonneg _, ?_⟩
  · rw [calculate_rmse, hmse, Option.map_some']
    show some (npSqrt (NpFloat.num m)) = some (RFloat.num (Real.sqrt (m : ℝ)))
    simp only [npSqrt]
    rw [if_neg (not_lt.mpr hmnonneg)]
  · constructor
    · intro h0
      have hm0 : ((m : ℚ) : ℝ) ≤ 0 := Real.sqrt_eq_zero'.mp h0
      have hm : m = 0 := le_antisymm (by exact_mod_cast hm0) hmnonneg
      rw [hmval] at hm
      rcases div_eq_zero_iff.mp hm with hs | hn
      · exact (zipWith_sub_all_zero_iff predicted actual hlen).mp
          ((sum_map_sq_eq_zero_iff _).mp hs)
      · exfalso
        apply hdne
        have hlen0 : ((List.zipWith (fun x y => x - y) predicted actual).map
            (fun x => x ^ 2)).length = 0 := by exact_mod_cast hn
        exact List.length_eq_zero.mp hlen0
    · intro h
      subst h
      have hall : ∀ x ∈ List.zipWith (fun x y => x - y) predicted predicted,
          x = 0 := (zipWith_sub_all_zero_iff predicted predicted rfl).mpr rfl
      have hs : ((List.zipWith (fun x y => x - y) predicted predicted).map
          (fun x => x ^ 2)).sum = 0 := (sum_map_sq_eq_zero_iff _).mpr hall
      have hm : m = 0 := by
        rw [hmval, hs, zero_div]
      rw [hm]
      norm_num

/-- Witness for the amended C6: the nonempty pair `[0,0]`, `[3,4]` with
radicand `mseQ [0,0] [3,4] = 25/2 = 12.5`, so the RMSE is `sqrt(12.5)`. -/
theorem C6_witness :
    ([0, 0] : List ℚ).length = ([3, 4] : List ℚ).length ∧
    ([0, 0] : List ℚ) ≠ [] ∧
    mseQ [0, 0] [3, 4] = some (NpFloat.num (25 / 2)) ∧
    (∃ m : ℚ,
      mean ((List.zipWith (fun x y => x - y) [0, 0] [3, 4]).map
        (fun x => x ^ 2)) = NpFloat.num m ∧
      mseQ [0, 0] [3, 4] = some (NpFloat.num m) ∧
      calculate_rmse [0, 0] [3, 4] = some (RFloat.num (Real.sqrt (m : ℝ))) ∧
      0 ≤ Real.sqrt (m : ℝ) ∧
      (Real.sqrt (m : ℝ) = 0 ↔ ([0, 0] : List ℚ) = [3, 4])) := by
  have hmse : mseQ [0, 0] [3, 4] = some (NpFloat.num (25 / 2)) := by
    rw [mseQ, show npSub [0, 0] [3, 4]
      = some [(0 : ℚ) - 3, 0 - 4] from rfl]
    simp only [Option.map_some', List.map_cons, List.map_nil]
    rw [mean_of_ne_nil (List.cons_ne_nil _ _)]
    simp only [Option.some.injEq, NpFloat.num.injEq]
    norm_num
  exact ⟨by decide, by decide, hmse,
    C6_rmse_characterization [0, 0] [3, 4] (by decide) (by decide)⟩

/-- Claim C7: `calculate_rmse` is symmetric in its two arguments, while
`calculate_mape` is not: with the zero-free singleton sequences `[1]` and
`[2]`, MAPE gives 50 one way and 100 the other. -/
theorem C7_rmse_symm_mape_asym (a b : List ℚ) (h : a.length = b.length) :
    calculate_rmse a b = calculate_rmse b a ∧
    (∀ x ∈ ([1] : List ℚ), x ≠ 0) ∧ (∀ x ∈ ([2] : List ℚ), x ≠ 0) ∧
    calculate_mape [1] [2] = some (NpFloat.num 50) ∧
    calculate_mape [2] [1] = some (NpFloat.num 100) ∧
    calculate_mape [1] [2] ≠ calculate_mape [2] [1] := by
  have h12 : calculate_mape [1] [2] = some (NpFloat.num 50) := by
    rw [calculate_mape_singleton]
    have hv : |((1 : ℚ) - 2) / 2| * 100 = 50 := by
      rw [show ((1 : ℚ) - 2) / 2 = -(1 / 2) by norm_num, abs_neg,
        abs_of_nonneg (by norm_num : (0 : ℚ) ≤ 1 / 2)]
      norm_num
    rw [hv]
  have h21 : calculate_mape [2] [1] = some (NpFloat.num 100) := by
    rw [calculate_mape_singleton]
    have hv : |((2 : ℚ) - 1) / 1| * 100 = 100 := by
      rw [show ((2 : ℚ) - 1) / 1 = 1 by norm_num,
        abs_of_nonneg (by norm_num : (0 : ℚ) ≤ 1)]
      norm_num
    rw [hv]
  have hne : calculate_mape [1] [2] ≠ calculate_mape [2] [1] := by
    rw [h12, h21]
    intro hc
    have hq : (50 : ℚ) = 100 := NpFloat.num.inj (Option.some.inj hc)
    norm_num at hq
  refine ⟨?_, by decide, by decide, h12, h21, hne⟩
  have hlist : (List.zipWith (fun x y => x - y) a b).map (fun x => x ^ 2)
      = (List.zipWith (fun x y => x - y) b a).map (fun x => x ^ 2) := by
    rw [List.map_zipWith, List.map_zipWith,
      List.zipWith_comm (fun x y => (x - y) ^ 2)]
    congr 1
    funext x y
    ring
  rw [calculate_rmse, calculate_rmse, mseQ, mseQ, npSub_eq_zipWith h,
    npSub_eq_zipWith h.symm]
  simp only [Option.map_some']
  rw [hlist]

/-- Witness for C7 at the equal-length pair `[1,2]`, `[3,4]`. -/
theorem C7_witness :
    ([1, 2] : List ℚ).length = ([3, 4] : List ℚ).length ∧
    (calculate_rmse [1, 2] [3, 4] = calculate_rmse [3, 4] [1, 2] ∧
    (∀ x ∈ ([1] : List ℚ), x ≠ 0) ∧ (∀ x ∈ ([2] : List ℚ), x ≠ 0) ∧
    calculate_mape [1] [2] = some (NpFloat.num 50) ∧
    calculate_mape [2] [1] = some (NpFloat.num 100) ∧
    calculate_mape [1] [2] ≠ calculate_mape [2] [1]) :=
  ⟨by decide, C7_rmse_symm_mape_asym [1, 2] [3, 4] (by decide)⟩

/-- Counterexample to C9 as stated: lengths 1 and 2 are unequal, yet numpy
broadcasting lets every computation proceed with no error: the RMSE radicand
and MAPE are computed, and `estimate_lifetime` with a wrong-length fade
array returns the sentinel instead of raising. -/
theorem C9_counterexample :
    ([0] : List ℚ).length ≠ ([3, 4] : List ℚ).length ∧
    mseQ [0] [3, 4] = some (NpFloat.num (25 / 2)) ∧
    calculate_mape [0] [3, 4] = some (NpFloat.num 100) ∧
    estimate_lifetime (fun _ _ _ => [0]) 25 1 (4 / 5) 1
      = some (XVal.inf, XVal.inf) := by
  have hsub : npSub [0] [3, 4] = some [(0 : ℚ) - 3, 0 - 4] := rfl
  have hmse : mseQ [0] [3, 4] = some (NpFloat.num (25 / 2)) := by
    rw [mseQ, hsub]
    simp only [Option.map_some', List.map_cons, List.map_nil]
    rw [mean_of_ne_nil (List.cons_ne_nil _ _)]
    simp only [Option.some.injEq, NpFloat.num.injEq]
    norm_num
  have hmape : calculate_mape [0] [3, 4] = some (NpFloat.num 100) := by
    rw [calculate_mape, hsub, Option.some_bind,
      show npDiv [(0 : ℚ) - 3, 0 - 4] [3, 4]
        = some [((0 : ℚ) - 3) / 3, ((0 : ℚ) - 4) / 4] from rfl]
    simp only [Option.map_some', List.map_cons, List.map_nil]
    rw [mean_of_ne_nil (List.cons_ne_nil _ _), NpFloat.mulQ_num,
      show ((0 : ℚ) - 3) / 3 = -1 by norm_num,
      show ((0 : ℚ) - 4) / 4 = -1 by norm_num]
    simp only [Option.some.injEq, NpFloat.num.injEq, abs_neg, abs_one]
    norm_num
  have hel : estimate_lifetime (fun _ _ _ => [0]) 25 1 (4 / 5) 1
      = some (XVal.inf, XVal.inf) := by
    apply estimate_lifetime_of_findIdx?_none
    show (([0] : List ℚ).map (fun f => 1 - f / 100)).findIdx?
      (fun r => decide (r ≤ (4 / 5 : ℚ))) = none
    rw [List.map_cons, List.map_nil, List.findIdx?_cons,
      show (decide ((1 : ℚ) - 0 / 100 ≤ 4 / 5)) = false from
        decide_eq_false (by norm_num)]
    simp
  exact ⟨by decide, hmse, hmape, hel⟩

/-- Claim C9 (amended): `calculate_rmse`'s radicand and `calculate_mape`
fail with a broadcast error exactly when the two lengths differ and neither
is 1 (numpy 1-D broadcast rule); `estimate_lifetime` performs no shape
check at all — whenever the model's fade array is no longer than the grid
it completes normally (possibly with the sentinel), never raising a
ShapeMismatch. -/
theorem C9_amended (p a : List ℚ) :
    (mseQ p a = none ↔
      p.length ≠ a.length ∧ p.length ≠ 1 ∧ a.length ≠ 1) ∧
    (calculate_mape p a = none ↔
      p.length ≠ a.length ∧ p.length ≠ 1 ∧ a.length ≠ 1) ∧
    (∀ (pf : List ℚ → List ℚ → ℚ → List ℚ) (temp cpd thr : ℚ) (my : ℕ),
      (pf (timeGrid my) (cycleGrid my cpd) temp).length ≤ 365 * my →
      (estimate_lifetime pf temp cpd thr my).isSome = true) := by
  refine ⟨?_, calculate_mape_eq_none_iff p a,
    fun pf temp cpd thr my h => estimate_lifetime_isSome pf temp cpd thr my h⟩
  rw [mseQ]
  constructor
  · intro h
    exact (npSub_eq_none_iff p a).mp (Option.map_eq_none'.mp h)
  · intro h
    rw [(npSub_eq_none_iff p a).mpr h]
    rfl

/-- Witness for the amended C9: a fade array of length 1 against a
365-point grid completes without error. -/
theorem C9_amended_witness :
    (((fun _ _ _ => ([0] : List ℚ)) (timeGrid 1) (cycleGrid 1 1)
      (25 : ℚ)).length ≤ 365 * 1) ∧
    (estimate_lifetime (fun _ _ _ => ([0] : List ℚ)) 25 1 (4 / 5) 1).isSome
      = true :=
  ⟨by decide, (C9_amended [] []).2.2 (fun _ _ _ => [0]) 25 1 (4 / 5) 1
    (by decide)⟩

end Battdegr
